import Mathlib

/-!
Shallow embedding of the nes Elasticsearch adapter (`package nes`,
`es_oper.go`).  The adapter's own control flow is translated statement by
statement; its external collaborators — the esapi client call, the JSON
codec and the text-template engine — are modelled as explicit function
parameters giving their outcomes, so every theorem quantifies over all
possible collaborator behaviours.
-/

/-- Go `error` values, identified by their message text; an error being
returned "unchanged" is equality of these values. -/
abbrev GoError := String

/-- A Go `interface` (empty-interface) result value: the `nil` interface,
the caller's populated model, or a boxed integer constant (the value
produced by `return 0, err` in a function returning `interface`). -/
inductive GoValue (α : Type) where
  | goNil
  | model (a : α)
  | goInt (n : Int)
deriving DecidableEq

/-- Result of a Go function returning `(int64, error)` that may also panic:
`ok n` is `(n, nil)`, `err e` is `(0, e)`, and `panicked` is a runtime
panic (a failed type assertion). -/
inductive GoResult (α : Type) where
  | ok (a : α)
  | err (e : GoError)
  | panicked
deriving DecidableEq

/-- A value decoded by `encoding/json` into a Go `interface`: JSON numbers
all decode to `float64` (`jnum`; the integral counts the claims concern are
represented exactly, so the numeric payload is carried as `Int`), strings
to `string`, and so on. -/
inductive Jval where
  | jnull
  | jbool (b : Bool)
  | jnum (n : Int)
  | jstr (s : String)
  | jarr (xs : List Jval)
  | jobj (fields : List (String × Jval))

/-- Go map indexing `m[k]` on a decoded `map[string]interface` object,
modelled on an association list with unique keys: `none` is the missing-key
zero value (the `nil` interface). -/
def mapLookup (m : List (String × Jval)) (k : String) : Option Jval :=
  match m with
  | [] => none
  | (k', v) :: rest => if k' = k then some v else mapLookup rest k

/-- True exactly when the unguarded Go type assertion
`m["count"].(float64)` would succeed: the key is present and its decoded
value is a JSON number (`float64`). -/
def hasNumCount (m : List (String × Jval)) : Bool :=
  match mapLookup m "count" with
  | some (Jval.jnum _) => true
  | _ => false

/-- The esapi `Response` as the adapter observes it: the HTTP status code,
the status line text returned by `Status()`, and the raw body text. -/
structure Response where
  statusCode : Nat
  status     : String
  bodyText   : String
deriving DecidableEq

/-- Modelled from the wrapped esapi library (external to this repository):
`Response.IsError()` is `StatusCode > 299`. -/
def Response.IsError (r : Response) : Bool := 299 < r.statusCode

/-- Modelled from the wrapped esapi library: `Response.Status()` returns
the status line text. -/
def Response.Status (r : Response) : String := r.status

/-- Modelled from the wrapped esapi library: `Response.String()` renders
the status line in brackets followed by the raw body text. -/
def Response.String (r : Response) : String :=
  "[" ++ r.Status ++ "] " ++ r.bodyText

/-- es_oper.go `newRespErr`: the single error built by
`fmt.Errorf("esapi's response status indicates failure: %s, %s",
resp.Status(), resp.String())`. -/
def newRespErr (resp : Response) : GoError :=
  "esapi's response status indicates failure: " ++ resp.Status ++ ", " ++ resp.String

/-- The string `needle` occurs as a contiguous substring of `hay`. -/
def strContains (hay needle : String) : Prop :=
  ∃ s t, hay.data = s ++ needle.data ++ t

/-- es_oper.go `unmarshallResponse(resp, dest)`: `defer resp.Body.Close()`
(one close on every exit, counted in the second component), then the
error-status check, then `json.NewDecoder(resp.Body).Decode(dest)`.  The
external decoder is the parameter `decoder`, applied to the body text; on
success the decoded value is the populated destination model. -/
def unmarshallResponse {α : Type} (resp : Response)
    (decoder : String → Except GoError α) : Except GoError α × Nat :=
  ((if resp.IsError then Except.error (newRespErr resp) else decoder resp.bodyText), 1)

/-- es_oper.go `TemplateParam`: the `Template` handle and `Data` are
represented by the outcomes of the template engine's two rendering calls
on them (`Template.Execute(Data)` and `Template.ExecuteTemplate(name, Data)`),
the engine being an external collaborator. -/
structure TemplateParam where
  executeRoot  : Except GoError String
  executeNamed : String → Except GoError String
  Name : String

/-- es_oper.go `TemplateParam.execute`: empty `Name` renders the
default/root template, otherwise the named sub-template. -/
def TemplateParam.execute (t : TemplateParam) : Except GoError String :=
  if t.Name = "" then t.executeRoot else t.executeNamed t.Name

/-- es_oper.go `esOper.Get`: client call (its outcome is `call`), then
`unmarshallResponse`, returning `(model, nil)` on success and `(nil, err)`
on failure.  The second component counts body closes. -/
def esOper.Get {α : Type} (call : Except GoError Response)
    (decoder : String → Except GoError α) : (GoValue α × Option GoError) × Nat :=
  match call with
  | Except.error e => ((GoValue.goNil, some e), 0)
  | Except.ok resp =>
    let res := unmarshallResponse resp decoder
    match res.1 with
    | Except.error e => ((GoValue.goNil, some e), res.2)
    | Except.ok a => ((GoValue.model a, none), res.2)

/-- es_oper.go `esOper.MultiGet`: JSON-encode the ids body (outcome `enc`),
then client call, then `unmarshallResponse`. -/
def esOper.MultiGet {α : Type} (enc : Except GoError Unit)
    (call : Except GoError Response) (decoder : String → Except GoError α) :
    (GoValue α × Option GoError) × Nat :=
  match enc with
  | Except.error e => ((GoValue.goNil, some e), 0)
  | Except.ok _ =>
    match call with
    | Except.error e => ((GoValue.goNil, some e), 0)
    | Except.ok resp =>
      let res := unmarshallResponse resp decoder
      match res.1 with
      | Except.error e => ((GoValue.goNil, some e), res.2)
      | Except.ok a => ((GoValue.model a, none), res.2)

/-- es_oper.go `esOper.Bulk`: run the caller's `writeReqBody` callback
(outcome `writeReqBody`), then the client bulk call, `defer
resp.Body.Close()`, error-status check.  The result carries the returned
error, the body-close count, and whether the underlying bulk client call
was invoked. -/
def esOper.Bulk (writeReqBody : Except GoError Unit)
    (call : Except GoError Response) : (Option GoError × Nat) × Bool :=
  match writeReqBody with
  | Except.error e => ((some e, 0), false)
  | Except.ok _ =>
    match call with
    | Except.error e => ((some e, 0), true)
    | Except.ok resp =>
      if resp.IsError then ((some (newRespErr resp), 1), true)
      else ((none, 1), true)

/-- es_oper.go `esOper.Create`: JSON-encode the object (outcome `enc`),
client call, `defer resp.Body.Close()`, error-status check.  The second
component counts body closes. -/
def esOper.Create (enc : Except GoError Unit)
    (call : Except GoError Response) : Option GoError × Nat :=
  match enc with
  | Except.error e => (some e, 0)
  | Except.ok _ =>
    match call with
    | Except.error e => (some e, 0)
    | Except.ok resp =>
      if resp.IsError then (some (newRespErr resp), 1) else (none, 1)

/-- es_oper.go `esOper.Index`: same shape as `Create` (encode, call,
deferred close, status check). -/
def esOper.Index (enc : Except GoError Unit)
    (call : Except GoError Response) : Option GoError × Nat :=
  match enc with
  | Except.error e => (some e, 0)
  | Except.ok _ =>
    match call with
    | Except.error e => (some e, 0)
    | Except.ok resp =>
      if resp.IsError then (some (newRespErr resp), 1) else (none, 1)

/-- es_oper.go `esOper.Update`: encode the `updateDoc` wrapper (outcome
`enc`), client call, deferred close, status check. -/
def esOper.Update (enc : Except GoError Unit)
    (call : Except GoError Response) : Option GoError × Nat :=
  match enc with
  | Except.error e => (some e, 0)
  | Except.ok _ =>
    match call with
    | Except.error e => (some e, 0)
    | Except.ok resp =>
      if resp.IsError then (some (newRespErr resp), 1) else (none, 1)

/-- es_oper.go `esOper.Delete`: client call, deferred close, status
check. -/
def esOper.Delete (call : Except GoError Response) : Option GoError × Nat :=
  match call with
  | Except.error e => (some e, 0)
  | Except.ok resp =>
    if resp.IsError then (some (newRespErr resp), 1) else (none, 1)

/-- es_oper.go `esOper.DeleteByQuery`: the client call reads the query
string through `strings.NewReader(query)`, so its outcome is a function of
the query; then deferred close and status check. -/
def esOper.DeleteByQuery (call : String → Except GoError Response)
    (query : String) : Option GoError × Nat :=
  match call query with
  | Except.error e => (some e, 0)
  | Except.ok resp =>
    if resp.IsError then (some (newRespErr resp), 1) else (none, 1)

/-- es_oper.go `esOper.DeleteByQueryTemplate`: render the template, return
rendering errors unchanged, otherwise delegate to `DeleteByQuery` with the
rendered string. -/
def esOper.DeleteByQueryTemplate (call : String → Except GoError Response)
    (t : TemplateParam) : Option GoError × Nat :=
  match t.execute with
  | Except.error e => (some e, 0)
  | Except.ok query => esOper.DeleteByQuery call query

/-- es_oper.go `esOper.UpdateByQuery`: client call on the query body,
deferred close, status check. -/
def esOper.UpdateByQuery (call : String → Except GoError Response)
    (query : String) : Option GoError × Nat :=
  match call query with
  | Except.error e => (some e, 0)
  | Except.ok resp =>
    if resp.IsError then (some (newRespErr resp), 1) else (none, 1)

/-- es_oper.go `esOper.UpdateByQueryTemplate`: render, propagate rendering
errors, delegate to `UpdateByQuery`. -/
def esOper.UpdateByQueryTemplate (call : String → Except GoError Response)
    (t : TemplateParam) : Option GoError × Nat :=
  match t.execute with
  | Except.error e => (some e, 0)
  | Except.ok query => esOper.UpdateByQuery call query

/-- es_oper.go `esOper.Count`: client call on the query body, `defer
resp.Body.Close()`, status check, decode the body into a generic
`map[string]interface` (outcome `decoder` on the body text), then the
unguarded `int64(m["count"].(float64))`: the assertion panics unless the
key is present with a JSON-number value. -/
def esOper.Count (call : String → Except GoError Response)
    (decoder : String → Except GoError (List (String × Jval)))
    (query : String) : GoResult Int × Nat :=
  match call query with
  | Except.error e => (GoResult.err e, 0)
  | Except.ok resp =>
    if resp.IsError then (GoResult.err (newRespErr resp), 1)
    else
      match decoder resp.bodyText with
      | Except.error e => (GoResult.err e, 1)
      | Except.ok m =>
        match mapLookup m "count" with
        | some (Jval.jnum n) => (GoResult.ok n, 1)
        | _ => (GoResult.panicked, 1)

/-- es_oper.go `esOper.CountTemplate`: render, propagate rendering errors,
delegate to `Count`. -/
def esOper.CountTemplate (call : String → Except GoError Response)
    (decoder : String → Except GoError (List (String × Jval)))
    (t : TemplateParam) : GoResult Int × Nat :=
  match t.execute with
  | Except.error e => (GoResult.err e, 0)
  | Except.ok query => esOper.Count call decoder query

/-- es_oper.go `esOper.Search`: client call on the query body, then
`unmarshallResponse`, returning `(model, nil)` or `(nil, err)`. -/
def esOper.Search {α : Type} (call : String → Except GoError Response)
    (decoder : String → Except GoError α) (query : String) :
    (GoValue α × Option GoError) × Nat :=
  match call query with
  | Except.error e => ((GoValue.goNil, some e), 0)
  | Except.ok resp =>
    let res := unmarshallResponse resp decoder
    match res.1 with
    | Except.error e => ((GoValue.goNil, some e), res.2)
    | Except.ok a => ((GoValue.model a, none), res.2)

/-- es_oper.go `esOper.SearchTemplate`: render the template; on a
rendering error the source is `return 0, err`, which boxes the integer 0
into the `interface` result (`GoValue.goInt 0`); otherwise delegate to
`Search` with the rendered string. -/
def esOper.SearchTemplate {α : Type} (call : String → Except GoError Response)
    (decoder : String → Except GoError α) (t : TemplateParam) :
    (GoValue α × Option GoError) × Nat :=
  match t.execute with
  | Except.error e => ((GoValue.goInt 0, some e), 0)
  | Except.ok query => esOper.Search call decoder query

/-- The esapi `ScrollRequest` fields the adapter's options touch: the
request context handle, the scroll cursor id, and the keepalive duration
in nanoseconds (Go `time.Duration`). -/
structure ScrollRequest where
  ctx      : Nat
  ScrollID : String
  Scroll   : Nat
deriving DecidableEq

/-- esapi functional option `Scroll.WithContext`. -/
def Scroll.WithContext (c : Nat) : ScrollRequest → ScrollRequest :=
  fun r => { r with ctx := c }

/-- esapi functional option `Scroll.WithScrollID`. -/
def Scroll.WithScrollID (id : String) : ScrollRequest → ScrollRequest :=
  fun r => { r with ScrollID := id }

/-- esapi functional option `Scroll.WithScroll`: sets the keepalive
duration. -/
def Scroll.WithScroll (d : Nat) : ScrollRequest → ScrollRequest :=
  fun r => { r with Scroll := d }

/-- Go `time.Minute` in nanoseconds. -/
def timeMinute : Nat := 60000000000

/-- The esapi client applies the supplied functional options in order to a
zero-value request. -/
def applyOpts (opts : List (ScrollRequest → ScrollRequest))
    (r : ScrollRequest) : ScrollRequest :=
  opts.foldl (fun acc f => f acc) r

/-- The zero-value `ScrollRequest` the esapi client starts from. -/
def zeroScrollRequest : ScrollRequest := { ctx := 0, ScrollID := "", Scroll := 0 }

/-- es_oper.go `esOper.SearchByScrollID` option list: `append([...]{
api.Scroll.WithContext(ctx), api.Scroll.WithScrollID(scrollID),
api.Scroll.WithScroll(5 * time.Minute)}, opts...)`. -/
def esOper.scrollOptions (ctx : Nat) (scrollID : String)
    (opts : List (ScrollRequest → ScrollRequest)) :
    List (ScrollRequest → ScrollRequest) :=
  [Scroll.WithContext ctx, Scroll.WithScrollID scrollID,
    Scroll.WithScroll (5 * timeMinute)] ++ opts

/-- The scroll request `esOper.SearchByScrollID` issues: all options
applied in order to the zero-value request. -/
def esOper.issuedScrollRequest (ctx : Nat) (scrollID : String)
    (opts : List (ScrollRequest → ScrollRequest)) : ScrollRequest :=
  applyOpts (esOper.scrollOptions ctx scrollID opts) zeroScrollRequest

/-- es_oper.go `esOper.SearchByScrollID`: issue the scroll call on the
built request (its outcome is `call` on that request), then
`unmarshallResponse`. -/
def esOper.SearchByScrollID {α : Type}
    (call : ScrollRequest → Except GoError Response)
    (decoder : String → Except GoError α) (ctx : Nat) (scrollID : String)
    (opts : List (ScrollRequest → ScrollRequest)) :
    (GoValue α × Option GoError) × Nat :=
  match call (esOper.issuedScrollRequest ctx scrollID opts) with
  | Except.error e => ((GoValue.goNil, some e), 0)
  | Except.ok resp =>
    let res := unmarshallResponse resp decoder
    match res.1 with
    | Except.error e => ((GoValue.goNil, some e), res.2)
    | Except.ok a => ((GoValue.model a, none), res.2)

/-! Helper lemmas: body-close counts once a response has been obtained. -/

theorem Get_ok_closes {α : Type} (r : Response) (dec : String → Except GoError α) :
    (esOper.Get (Except.ok r) dec).2 = 1 := by
  simp only [esOper.Get]
  split <;> rfl

theorem MultiGet_ok_closes {α : Type} (r : Response) (dec : String → Except GoError α) :
    (esOper.MultiGet (Except.ok ()) (Except.ok r) dec).2 = 1 := by
  simp only [esOper.MultiGet]
  split <;> rfl

theorem Bulk_ok_closes (r : Response) :
    (esOper.Bulk (Except.ok ()) (Except.ok r)).1.2 = 1 := by
  simp only [esOper.Bulk]
  split <;> rfl

theorem Create_ok_closes (r : Response) :
    (esOper.Create (Except.ok ()) (Except.ok r)).2 = 1 := by
  simp only [esOper.Create]
  split <;> rfl

theorem Index_ok_closes (r : Response) :
    (esOper.Index (Except.ok ()) (Except.ok r)).2 = 1 := by
  simp only [esOper.Index]
  split <;> rfl

theorem Update_ok_closes (r : Response) :
    (esOper.Update (Except.ok ()) (Except.ok r)).2 = 1 := by
  simp only [esOper.Update]
  split <;> rfl

theorem Delete_ok_closes (r : Response) :
    (esOper.Delete (Except.ok r)).2 = 1 := by
  simp only [esOper.Delete]
  split <;> rfl

theorem DeleteByQuery_ok_closes (r : Response) (q : String) :
    (esOper.DeleteByQuery (fun _ => Except.ok r) q).2 = 1 := by
  simp only [esOper.DeleteByQuery]
  split <;> rfl

theorem UpdateByQuery_ok_closes (r : Response) (q : String) :
    (esOper.UpdateByQuery (fun _ => Except.ok r) q).2 = 1 := by
  simp only [esOper.UpdateByQuery]
  split <;> rfl

theorem Count_ok_closes (r : Response)
    (mdec : String → Except GoError (List (String × Jval))) (q : String) :
    (esOper.Count (fun _ => Except.ok r) mdec q).2 = 1 := by
  simp only [esOper.Count]
  split <;> first | rfl | (split <;> first | rfl | (split <;> rfl))

theorem Search_ok_closes {α : Type} (r : Response)
    (dec : String → Except GoError α) (q : String) :
    (esOper.Search (fun _ => Except.ok r) dec q).2 = 1 := by
  simp only [esOper.Search]
  split <;> rfl

theorem SearchByScrollID_ok_closes {α : Type} (r : Response)
    (dec : String → Except GoError α) (ctx : Nat) (sid : String)
    (opts : List (ScrollRequest → ScrollRequest)) :
    (esOper.SearchByScrollID (fun _ => Except.ok r) dec ctx sid opts).2 = 1 := by
  simp only [esOper.SearchByScrollID]
  split <;> rfl

theorem execute_root_ok (q : String) (f : String → Except GoError String) :
    (TemplateParam.mk (Except.ok q) f "").execute = Except.ok q := rfl

/-- C1: every ESOper operation that obtains a response from the client
call closes the response body exactly once before returning, on every exit
path — the success path, the error-status path, and the JSON-decode-failure
path — for all response contents and all decoder outcomes. -/
theorem claim_c1_body_closed_exactly_once {α : Type} (r : Response)
    (dec : String → Except GoError α)
    (mdec : String → Except GoError (List (String × Jval)))
    (q : String) (f : String → Except GoError String) (ctx : Nat)
    (sid : String) (opts : List (ScrollRequest → ScrollRequest)) :
    (esOper.Get (Except.ok r) dec).2 = 1 ∧
    (esOper.MultiGet (Except.ok ()) (Except.ok r) dec).2 = 1 ∧
    (esOper.Bulk (Except.ok ()) (Except.ok r)).1.2 = 1 ∧
    (esOper.Create (Except.ok ()) (Except.ok r)).2 = 1 ∧
    (esOper.Index (Except.ok ()) (Except.ok r)).2 = 1 ∧
    (esOper.Update (Except.ok ()) (Except.ok r)).2 = 1 ∧
    (esOper.Delete (Except.ok r)).2 = 1 ∧
    (esOper.DeleteByQuery (fun _ => Except.ok r) q).2 = 1 ∧
    (esOper.UpdateByQuery (fun _ => Except.ok r) q).2 = 1 ∧
    (esOper.Count (fun _ => Except.ok r) mdec q).2 = 1 ∧
    (esOper.Search (fun _ => Except.ok r) dec q).2 = 1 ∧
    (esOper.SearchByScrollID (fun _ => Except.ok r) dec ctx sid opts).2 = 1 ∧
    (esOper.DeleteByQueryTemplate (fun _ => Except.ok r) ⟨Except.ok q, f, ""⟩).2 = 1 ∧
    (esOper.UpdateByQueryTemplate (fun _ => Except.ok r) ⟨Except.ok q, f, ""⟩).2 = 1 ∧
    (esOper.CountTemplate (fun _ => Except.ok r) mdec ⟨Except.ok q, f, ""⟩).2 = 1 ∧
    (esOper.SearchTemplate (fun _ => Except.ok r) dec ⟨Except.ok q, f, ""⟩).2 = 1 := by
  refine ⟨Get_ok_closes r dec, MultiGet_ok_closes r dec, Bulk_ok_closes r,
    Create_ok_closes r, Index_ok_closes r, Update_ok_closes r, Delete_ok_closes r,
    DeleteByQuery_ok_closes r q, UpdateByQuery_ok_closes r q, Count_ok_closes r mdec q,
    Search_ok_closes r dec q, SearchByScrollID_ok_closes r dec ctx sid opts,
    ?_, ?_, ?_, ?_⟩
  · simp only [esOper.DeleteByQueryTemplate, execute_root_ok]
    exact DeleteByQuery_ok_closes r q
  · simp only [esOper.UpdateByQueryTemplate, execute_root_ok]
    exact UpdateByQuery_ok_closes r q
  · simp only [esOper.CountTemplate, execute_root_ok]
    exact Count_ok_closes r mdec q
  · simp only [esOper.SearchTemplate, execute_root_ok]
    exact Search_ok_closes r dec q

/-- C8: SearchByScrollID builds its scroll request with a fixed 5-minute
keepalive: the option list is exactly the context/scroll-id/5-minute-scroll
prefix followed by the caller's options, the issued request is the caller's
options applied to a request already carrying a 5-minute keepalive, and
5 minutes is 300000000000 nanoseconds. -/
theorem claim_c8_scroll_keepalive_five_minutes (ctx : Nat) (sid : String)
    (opts : List (ScrollRequest → ScrollRequest)) :
    esOper.scrollOptions ctx sid opts =
      [Scroll.WithContext ctx, Scroll.WithScrollID sid,
        Scroll.WithScroll (5 * timeMinute)] ++ opts ∧
    esOper.issuedScrollRequest ctx sid opts =
      applyOpts opts { ctx := ctx, ScrollID := sid, Scroll := 5 * timeMinute } ∧
    5 * timeMinute = 300000000000 := by
  refine ⟨rfl, ?_, by norm_num [timeMinute]⟩
  simp only [esOper.issuedScrollRequest, esOper.scrollOptions, applyOpts,
    List.foldl_append]
  rfl

/-- C10: if the writeReqBody callback passed to Bulk fails, Bulk returns
that error unchanged, closes nothing, and never invokes the underlying
bulk client call. -/
theorem claim_c10_bulk_write_error_short_circuits (e : GoError)
    (call : Except GoError Response) :
    esOper.Bulk (Except.error e) call = ((some e, 0), false) := rfl

theorem newRespErr_contains_status (r : Response) :
    strContains (newRespErr r) r.Status := by
  refine ⟨("esapi's response status indicates failure: ").data,
    (", " ++ Response.String r).data, ?_⟩
  simp [newRespErr, String.data_append, List.append_assoc]

theorem newRespErr_contains_body (r : Response) :
    strContains (newRespErr r) r.bodyText := by
  refine ⟨("esapi's response status indicates failure: " ++ r.Status ++ ", " ++
    "[" ++ r.Status ++ "] ").data, [], ?_⟩
  simp [newRespErr, Response.String, String.data_append, List.append_assoc]

/-- C2: for every response whose IsError flag is set, each operation
returns the single error built by newRespErr, whose message contains the
response's status text and its raw body text. -/
theorem claim_c2_error_status_message {α : Type} (r : Response)
    (h : r.IsError = true) (dec : String → Except GoError α)
    (mdec : String → Except GoError (List (String × Jval))) (q : String)
    (ctx : Nat) (sid : String) (opts : List (ScrollRequest → ScrollRequest)) :
    (esOper.Get (Except.ok r) dec).1 = (GoValue.goNil, some (newRespErr r)) ∧
    (esOper.MultiGet (Except.ok ()) (Except.ok r) dec).1 =
      (GoValue.goNil, some (newRespErr r)) ∧
    (esOper.Bulk (Except.ok ()) (Except.ok r)).1.1 = some (newRespErr r) ∧
    (esOper.Create (Except.ok ()) (Except.ok r)).1 = some (newRespErr r) ∧
    (esOper.Index (Except.ok ()) (Except.ok r)).1 = some (newRespErr r) ∧
    (esOper.Update (Except.ok ()) (Except.ok r)).1 = some (newRespErr r) ∧
    (esOper.Delete (Except.ok r)).1 = some (newRespErr r) ∧
    (esOper.DeleteByQuery (fun _ => Except.ok r) q).1 = some (newRespErr r) ∧
    (esOper.UpdateByQuery (fun _ => Except.ok r) q).1 = some (newRespErr r) ∧
    (esOper.Count (fun _ => Except.ok r) mdec q).1 = GoResult.err (newRespErr r) ∧
    (esOper.Search (fun _ => Except.ok r) dec q).1 =
      (GoValue.goNil, some (newRespErr r)) ∧
    (esOper.SearchByScrollID (fun _ => Except.ok r) dec ctx sid opts).1 =
      (GoValue.goNil, some (newRespErr r)) ∧
    strContains (newRespErr r) r.Status ∧
    strContains (newRespErr r) r.bodyText := by
  refine ⟨?_, ?_, ?_, ?_, ?_, ?_, ?_, ?_, ?_, ?_, ?_, ?_,
    newRespErr_contains_status r, newRespErr_contains_body r⟩ <;>
  simp [esOper.Get, esOper.MultiGet, esOper.Bulk, esOper.Create, esOper.Index,
    esOper.Update, esOper.Delete, esOper.DeleteByQuery, esOper.UpdateByQuery,
    esOper.Count, esOper.Search, esOper.SearchByScrollID, unmarshallResponse, h]

theorem claim_c2_witness :
    (esOper.Delete (Except.ok (Response.mk 500 "500 Internal Server Error" "oops"))).1 =
      some (newRespErr (Response.mk 500 "500 Internal Server Error" "oops")) ∧
    strContains (newRespErr (Response.mk 500 "500 Internal Server Error" "oops"))
      "500 Internal Server Error" ∧
    strContains (newRespErr (Response.mk 500 "500 Internal Server Error" "oops"))
      "oops" := by
  have h := claim_c2_error_status_message
    (Response.mk 500 "500 Internal Server Error" "oops") (by decide)
    (fun _ => (Except.error "dec" : Except GoError Nat))
    (fun _ => Except.error "mdec") "q" 0 "sid" []
  exact ⟨h.2.2.2.2.2.2.1, h.2.2.2.2.2.2.2.2.2.2.2.2.1, h.2.2.2.2.2.2.2.2.2.2.2.2.2⟩

/-- C3: when the template renders successfully to q, each Template variant
returns exactly what its string-accepting counterpart returns on q with
the same remaining arguments. -/
theorem claim_c3_template_forwards_rendered_query {α : Type}
    (callD callU callC callS : String → Except GoError Response)
    (mdec : String → Except GoError (List (String × Jval)))
    (dec : String → Except GoError α) (t : TemplateParam) (q : String)
    (h : t.execute = Except.ok q) :
    esOper.DeleteByQueryTemplate callD t = esOper.DeleteByQuery callD q ∧
    esOper.UpdateByQueryTemplate callU t = esOper.UpdateByQuery callU q ∧
    esOper.CountTemplate callC mdec t = esOper.Count callC mdec q ∧
    esOper.SearchTemplate callS dec t = esOper.Search callS dec q := by
  refine ⟨?_, ?_, ?_, ?_⟩ <;>
  simp [esOper.DeleteByQueryTemplate, esOper.UpdateByQueryTemplate,
    esOper.CountTemplate, esOper.SearchTemplate, h]

theorem claim_c3_witness :
    esOper.DeleteByQueryTemplate (fun _ => Except.error "down")
      ⟨Except.ok "rendered", fun _ => Except.error "nope", ""⟩ =
      esOper.DeleteByQuery (fun _ => Except.error "down") "rendered" :=
  (claim_c3_template_forwards_rendered_query
    (fun _ => Except.error "down") (fun _ => Except.error "down")
    (fun _ => Except.error "down") (fun _ => Except.error "down")
    (fun _ => Except.error "mdec")
    (fun _ => (Except.error "dec" : Except GoError Nat))
    ⟨Except.ok "rendered", fun _ => Except.error "nope", ""⟩ "rendered" rfl).1

/-- C4, evaluated at the failing input: when the template rendering passed
to SearchTemplate fails, the source line `return 0, err` produces the boxed
integer 0 — a non-nil interface value — together with the error, so the
claimed `(nil, error)` normalization does not hold on this path. -/
theorem claim_c4_searchtemplate_render_error_boxes_zero {α : Type}
    (call : String → Except GoError Response) (dec : String → Except GoError α)
    (e : GoError) (f : String → Except GoError String) :
    esOper.SearchTemplate call dec ⟨Except.error e, f, ""⟩ =
      ((GoValue.goInt 0, some e), 0) ∧
    (GoValue.goInt 0 : GoValue α) ≠ GoValue.goNil := by
  refine ⟨rfl, ?_⟩
  intro hcontra
  exact GoValue.noConfusion hcontra

/-- C5: a successful Count call whose body decodes to the JSON object with
a numeric count field 42 returns 42 with no error (and one body close). -/
theorem claim_c5_count_parses_count_field
    (call : String → Except GoError Response)
    (mdec : String → Except GoError (List (String × Jval))) (q : String)
    (r : Response) (hc : call q = Except.ok r) (hr : r.IsError = false)
    (hd : mdec r.bodyText = Except.ok [("count", Jval.jnum 42)]) :
    esOper.Count call mdec q = (GoResult.ok 42, 1) := by
  simp [esOper.Count, hc, hr, hd, mapLookup]

theorem claim_c5_witness :
    esOper.Count (fun _ => Except.ok (Response.mk 200 "200 OK" "count-body"))
      (fun _ => Except.ok [("count", Jval.jnum 42)]) "q" = (GoResult.ok 42, 1) :=
  claim_c5_count_parses_count_field
    (fun _ => Except.ok (Response.mk 200 "200 OK" "count-body"))
    (fun _ => Except.ok [("count", Jval.jnum 42)]) "q"
    (Response.mk 200 "200 OK" "count-body") rfl (by decide) rfl

/-- C6: TemplateParam.execute with an empty Name renders via the
default/root template path, and with a non-empty Name renders via the
named-template path with that name. -/
theorem claim_c6_template_two_mode_dispatch (t : TemplateParam) :
    (t.Name = "" → t.execute = t.executeRoot) ∧
    (t.Name ≠ "" → t.execute = t.executeNamed t.Name) := by
  constructor <;> intro h <;> simp [TemplateParam.execute, h]

theorem claim_c6_witness :
    (TemplateParam.mk (Except.ok "root-rendered") (fun n => Except.ok n) "").execute =
      Except.ok "root-rendered" ∧
    (TemplateParam.mk (Except.ok "root-rendered") (fun n => Except.ok n) "sub").execute =
      Except.ok "sub" := by
  constructor
  · exact ((claim_c6_template_two_mode_dispatch
      (TemplateParam.mk (Except.ok "root-rendered") (fun n => Except.ok n) "")).1 rfl)
  · exact ((claim_c6_template_two_mode_dispatch
      (TemplateParam.mk (Except.ok "root-rendered") (fun n => Except.ok n) "sub")).2
        (by decide)).trans rfl

/-- C7: transport errors, JSON encode/decode errors and template-rendering
errors are each returned to the immediate caller unchanged, with no retry
and no suppression, across all operations. -/
theorem claim_c7_errors_propagated_unchanged {α : Type} (e : GoError)
    (r : Response) (hr : r.IsError = false) (dec : String → Except GoError α)
    (mdec : String → Except GoError (List (String × Jval))) (q : String)
    (rcall : Except GoError Response) (scall : String → Except GoError Response)
    (f : String → Except GoError String) (ctx : Nat) (sid : String)
    (opts : List (ScrollRequest → ScrollRequest)) :
    (esOper.Get (Except.error e) dec).1 = (GoValue.goNil, some e) ∧
    (esOper.MultiGet (Except.ok ()) (Except.error e) dec).1 =
      (GoValue.goNil, some e) ∧
    esOper.Bulk (Except.ok ()) (Except.error e) = ((some e, 0), true) ∧
    esOper.Create (Except.ok ()) (Except.error e) = (some e, 0) ∧
    esOper.Index (Except.ok ()) (Except.error e) = (some e, 0) ∧
    esOper.Update (Except.ok ()) (Except.error e) = (some e, 0) ∧
    esOper.Delete (Except.error e) = (some e, 0) ∧
    esOper.DeleteByQuery (fun _ => Except.error e) q = (some e, 0) ∧
    esOper.UpdateByQuery (fun _ => Except.error e) q = (some e, 0) ∧
    esOper.Count (fun _ => Except.error e) mdec q = (GoResult.err e, 0) ∧
    (esOper.Search (fun _ => Except.error e) dec q).1 = (GoValue.goNil, some e) ∧
    (esOper.SearchByScrollID (fun _ => Except.error e) dec ctx sid opts).1 =
      (GoValue.goNil, some e) ∧
    (esOper.MultiGet (Except.error e) rcall dec).1 = (GoValue.goNil, some e) ∧
    esOper.Create (Except.error e) rcall = (some e, 0) ∧
    esOper.Index (Except.error e) rcall = (some e, 0) ∧
    esOper.Update (Except.error e) rcall = (some e, 0) ∧
    (esOper.Get (Except.ok r) (fun _ => (Except.error e : Except GoError α))).1 =
      (GoValue.goNil, some e) ∧
    (esOper.Search (fun _ => Except.ok r)
      (fun _ => (Except.error e : Except GoError α)) q).1 =
      (GoValue.goNil, some e) ∧
    (esOper.Count (fun _ => Except.ok r) (fun _ => Except.error e) q).1 =
      GoResult.err e ∧
    (esOper.SearchByScrollID (fun _ => Except.ok r)
      (fun _ => (Except.error e : Except GoError α)) ctx sid opts).1 =
      (GoValue.goNil, some e) ∧
    esOper.DeleteByQueryTemplate scall ⟨Except.error e, f, ""⟩ = (some e, 0) ∧
    esOper.UpdateByQueryTemplate scall ⟨Except.error e, f, ""⟩ = (some e, 0) ∧
    esOper.CountTemplate scall mdec ⟨Except.error e, f, ""⟩ =
      (GoResult.err e, 0) ∧
    (esOper.SearchTemplate scall dec ⟨Except.error e, f, ""⟩).1.2 = some e := by
  refine ⟨?_, ?_, ?_, ?_, ?_, ?_, ?_, ?_, ?_, ?_, ?_, ?_, ?_, ?_, ?_, ?_,
    ?_, ?_, ?_, ?_, ?_, ?_, ?_, ?_⟩ <;>
  simp [esOper.Get, esOper.MultiGet, esOper.Bulk, esOper.Create, esOper.Index,
    esOper.Update, esOper.Delete, esOper.DeleteByQuery, esOper.UpdateByQuery,
    esOper.Count, esOper.Search, esOper.SearchByScrollID,
    esOper.DeleteByQueryTemplate, esOper.UpdateByQueryTemplate,
    esOper.CountTemplate, esOper.SearchTemplate, TemplateParam.execute,
    unmarshallResponse, hr]

theorem claim_c7_witness :
    (esOper.Get (Except.error "transport down")
      (fun _ => (Except.ok 7 : Except GoError Nat))).1 =
      (GoValue.goNil, some "transport down") ∧
    (esOper.Get (Except.ok (Response.mk 200 "200 OK" "body"))
      (fun _ => (Except.error "transport down" : Except GoError Nat))).1 =
      (GoValue.goNil, some "transport down") ∧
    esOper.DeleteByQueryTemplate (fun _ => Except.error "other")
      ⟨Except.error "transport down", fun _ => Except.ok "x", ""⟩ =
      (some "transport down", 0) := by
  obtain ⟨c1, c2, c3, c4, c5, c6, c7, c8, c9, c10, c11, c12, c13, c14, c15,
    c16, c17, c18, c19, c20, c21, c22, c23, c24⟩ :=
    claim_c7_errors_propagated_unchanged "transport down"
      (Response.mk 200 "200 OK" "body") (by decide)
      (fun _ => (Except.ok 7 : Except GoError Nat))
      (fun _ => Except.error "mdec") "q" (Except.error "other")
      (fun _ => Except.error "other") (fun _ => Except.ok "x") 0 "sid" []
  exact ⟨c1, c17, c21⟩

/-- C9: a successful (non-error-status) Count response whose decoded JSON
object has no numeric count field makes the unguarded type assertion
`m["count"].(float64)` panic, rather than returning an error. -/
theorem claim_c9_count_panics_without_numeric_count
    (call : String → Except GoError Response)
    (mdec : String → Except GoError (List (String × Jval))) (q : String)
    (r : Response) (m : List (String × Jval)) (hc : call q = Except.ok r)
    (hr : r.IsError = false) (hd : mdec r.bodyText = Except.ok m)
    (hm : hasNumCount m = false) :
    (esOper.Count call mdec q).1 = GoResult.panicked := by
  simp only [esOper.Count, hc, hr, Bool.false_eq_true, if_false, hd]
  cases hml : mapLookup m "count" with
  | none => simp [hml]
  | some v =>
    cases v with
    | jnum n =>
      exfalso
      unfold hasNumCount at hm
      rw [hml] at hm
      simp at hm
    | jnull => simp [hml]
    | jbool b => simp [hml]
    | jstr s => simp [hml]
    | jarr xs => simp [hml]
    | jobj fs => simp [hml]

theorem claim_c9_witness :
    (esOper.Count (fun _ => Except.ok (Response.mk 200 "200 OK" "no-count"))
      (fun _ => Except.ok [("count", Jval.jstr "42")]) "q").1 =
      GoResult.panicked :=
  claim_c9_count_panics_without_numeric_count
    (fun _ => Except.ok (Response.mk 200 "200 OK" "no-count"))
    (fun _ => Except.ok [("count", Jval.jstr "42")]) "q"
    (Response.mk 200 "200 OK" "no-count") [("count", Jval.jstr "42")]
    rfl (by decide) rfl rfl
